import Mathlib

/-!
# Verification of the hyper-friends-zone data model and views

Shallow embedding of the repository's relational schema (the SQL migration:
six tables with row-level-security policies), of the generic data-access
calls the views make, and of the view-local state updates in the React
components (`Friends`, `Post`, `Feed`, `CreatePost`).

Conventions:
* uuids and timestamps are modelled as `Nat`;
* each table is a `List` of row structures inside a `Store`;
* row-level security is modelled per table and operation as an optional
  predicate (`none` = the table has RLS enabled but no policy for that
  operation, hence default deny, as in PostgreSQL);
* a mutation returns `Except DbError Store`; an error leaves the store as
  it was (single-statement atomicity).
-/

namespace HyperFriendsZone

abbrev UserId := Nat
abbrev RowId := Nat
abbrev Timestamp := Nat

/-- `friendships.status` column: CHECK (status IN ("pending", "accepted", "rejected")). -/
inductive FriendshipStatus where
  | pending
  | accepted
  | rejected
deriving DecidableEq, Repr

/-- `profiles` table row. -/
structure ProfileRow where
  id : UserId
  username : String
  full_name : String
  avatar_url : String
  bio : String
  created_at : Timestamp
deriving DecidableEq, Repr

/-- `posts` table row. -/
structure PostRow where
  id : RowId
  user_id : UserId
  content : String
  image_url : String
  created_at : Timestamp
deriving DecidableEq, Repr

/-- `comments` table row. -/
structure CommentRow where
  id : RowId
  post_id : RowId
  user_id : UserId
  content : String
  created_at : Timestamp
deriving DecidableEq, Repr

/-- `likes` table row. -/
structure LikeRow where
  id : RowId
  post_id : RowId
  user_id : UserId
  created_at : Timestamp
deriving DecidableEq, Repr

/-- `follows` table row. -/
structure FollowRow where
  id : RowId
  follower_id : UserId
  following_id : UserId
  created_at : Timestamp
deriving DecidableEq, Repr

/-- `friendships` table row. -/
structure FriendshipRow where
  id : RowId
  user_id_1 : UserId
  user_id_2 : UserId
  status : FriendshipStatus
  requested_by : UserId
  created_at : Timestamp
  updated_at : Timestamp
deriving DecidableEq, Repr

/-- The relational store: the six tables of the migration. -/
structure Store where
  profiles : List ProfileRow
  posts : List PostRow
  comments : List CommentRow
  likes : List LikeRow
  follows : List FollowRow
  friendships : List FriendshipRow
deriving DecidableEq, Repr

/-! ## Row-level security policies (from the SQL migration)

Each table has RLS enabled.  A policy is a predicate over the caller's
identity (`auth.uid()`) and the row; `none` means the migration declares no
policy for that table/operation pair, so PostgreSQL denies the operation on
every row. -/

/-- Per-table RLS policy set for one row type.  `update` policies in the
migration always have identical USING and WITH CHECK clauses, so one
predicate covers both (it is applied to the old row for USING and to the
updated row for WITH CHECK). -/
structure TablePolicy (Row : Type) where
  selectUsing : Option (UserId → Row → Bool)
  insertCheck : Option (UserId → Row → Bool)
  updatePred : Option (UserId → Row → Bool)
  deleteUsing : Option (UserId → Row → Bool)

/-- Default-deny semantics: RLS is enabled, so a missing policy permits
nothing. -/
def rlsAllows {Row : Type} (p : Option (UserId → Row → Bool)) (uid : UserId)
    (r : Row) : Bool :=
  match p with
  | none => false
  | some pred => pred uid r

/-- `profiles`: "Anyone can view profiles", "Users can insert own profile",
"Users can update own profile"; no DELETE policy. -/
def profilesPolicy : TablePolicy ProfileRow where
  selectUsing := some fun _ _ => true
  insertCheck := some fun uid r => decide (uid = r.id)
  updatePred := some fun uid r => decide (uid = r.id)
  deleteUsing := none

/-- `posts`: "Anyone can view posts", "Users can create own posts",
"Users can update own posts", "Users can delete own posts". -/
def postsPolicy : TablePolicy PostRow where
  selectUsing := some fun _ _ => true
  insertCheck := some fun uid r => decide (uid = r.user_id)
  updatePred := some fun uid r => decide (uid = r.user_id)
  deleteUsing := some fun uid r => decide (uid = r.user_id)

/-- `comments`: "Anyone can view comments", "Users can create comments",
"Users can delete own comments"; the migration declares no UPDATE policy. -/
def commentsPolicy : TablePolicy CommentRow where
  selectUsing := some fun _ _ => true
  insertCheck := some fun uid r => decide (uid = r.user_id)
  updatePred := none
  deleteUsing := some fun uid r => decide (uid = r.user_id)

/-- `likes`: "Anyone can view likes", "Users can create likes",
"Users can delete own likes". -/
def likesPolicy : TablePolicy LikeRow where
  selectUsing := some fun _ _ => true
  insertCheck := some fun uid r => decide (uid = r.user_id)
  updatePred := none
  deleteUsing := some fun uid r => decide (uid = r.user_id)

/-- `follows`: "Anyone can view follows", "Users can create follows",
"Users can delete own follows". -/
def followsPolicy : TablePolicy FollowRow where
  selectUsing := some fun _ _ => true
  insertCheck := some fun uid r => decide (uid = r.follower_id)
  updatePred := none
  deleteUsing := some fun uid r => decide (uid = r.follower_id)

/-- `friendships`: "Users can view their friendships" (participant),
"Users can create friend requests" (requester who is a participant),
"Users can update friendship status" (participant); the migration declares
no DELETE policy for `friendships`. -/
def friendshipsPolicy : TablePolicy FriendshipRow where
  selectUsing := some fun uid f => decide (uid = f.user_id_1 ∨ uid = f.user_id_2)
  insertCheck := some fun uid f =>
    decide (uid = f.requested_by ∧ (uid = f.user_id_1 ∨ uid = f.user_id_2))
  updatePred := some fun uid f => decide (uid = f.user_id_1 ∨ uid = f.user_id_2)
  deleteUsing := none

/-- Errors a single-row store operation can surface to the client. -/
inductive DbError where
  | rlsViolation
  | checkViolation
  | uniqueViolation
deriving DecidableEq, Repr

/-! ## Generic store calls

SELECT filters the table through the RLS select policy; DELETE removes the
rows matched by both the query filter and the RLS delete policy (a row the
policy hides is simply not affected — the statement itself succeeds).
For INSERT, PostgreSQL's relative evaluation order of table constraints and
the RLS WITH CHECK clause does not change whether a statement succeeds; we
fix the order CHECK constraint → UNIQUE/primary key → RLS. -/

def rlsSelect {Row : Type} (pol : Option (UserId → Row → Bool)) (uid : UserId)
    (rows : List Row) : List Row :=
  rows.filter (rlsAllows pol uid)

def rlsDelete {Row : Type} (pol : Option (UserId → Row → Bool)) (uid : UserId)
    (cond : Row → Bool) (rows : List Row) : List Row :=
  rows.filter fun r => !(rlsAllows pol uid r && cond r)

/-! ## Friendships operations (`Friends` view) -/

/-- The row `Friends.handleFriendRequest` inserts:
`user_id_1 = user.id, user_id_2 = userId, requested_by = user.id, status = "pending"`. -/
def friendRequestRow (uid target : UserId) (newId : RowId) (t : Timestamp) :
    FriendshipRow :=
  { id := newId, user_id_1 := uid, user_id_2 := target,
    status := .pending, requested_by := uid, created_at := t, updated_at := t }

/-- INSERT into `friendships`: CHECK (user_id_1 != user_id_2), primary key,
RLS "Users can create friend requests". -/
def insertFriendshipRow (uid : UserId) (r : FriendshipRow) (s : Store) :
    Except DbError Store :=
  if r.user_id_1 == r.user_id_2 then .error .checkViolation
  else if s.friendships.any fun g => g.id == r.id then .error .uniqueViolation
  else if !(rlsAllows friendshipsPolicy.insertCheck uid r) then .error .rlsViolation
  else .ok { s with friendships := s.friendships ++ [r] }

/-- `Friends.handleFriendRequest`. -/
def handleFriendRequest (uid target : UserId) (newId : RowId) (t : Timestamp)
    (s : Store) : Except DbError Store :=
  insertFriendshipRow uid (friendRequestRow uid target newId t) s

/-- UPDATE on `friendships` under RLS: USING selects the affected rows,
WITH CHECK re-validates each updated row (same predicate in the migration),
and the table CHECK constraint must still hold on the updated rows. -/
def updateFriendshipsSet (uid : UserId) (upd : FriendshipRow → FriendshipRow)
    (cond : FriendshipRow → Bool) (s : Store) : Except DbError Store :=
  if !((s.friendships.filter fun f =>
        rlsAllows friendshipsPolicy.updatePred uid f && cond f).all
      fun f => rlsAllows friendshipsPolicy.updatePred uid (upd f)) then
    .error .rlsViolation
  else if !((s.friendships.filter fun f =>
        rlsAllows friendshipsPolicy.updatePred uid f && cond f).all
      fun f => !((upd f).user_id_1 == (upd f).user_id_2)) then
    .error .checkViolation
  else
    .ok { s with friendships := s.friendships.map fun f =>
      if rlsAllows friendshipsPolicy.updatePred uid f && cond f then upd f else f }

/-- `Friends.handleAcceptRequest`:
`update(status = "accepted") where id = requestId`. -/
def handleAcceptRequest (uid : UserId) (requestId : RowId) (s : Store) :
    Except DbError Store :=
  updateFriendshipsSet uid (fun f => { f with status := .accepted })
    (fun f => f.id == requestId) s

/-- `Friends.handleRejectRequest`: a delete of the row with id = requestId on
`friendships` — which has no RLS DELETE policy. -/
def handleRejectRequest (uid : UserId) (requestId : RowId) (s : Store) : Store :=
  { s with friendships :=
      (rlsDelete friendshipsPolicy.deleteUsing uid (fun f => f.id == requestId)
        s.friendships) }

/-- A bare SELECT on `friendships` by an authenticated caller (RLS only). -/
def selectFriendships (uid : UserId) (s : Store) : List FriendshipRow :=
  rlsSelect friendshipsPolicy.selectUsing uid s.friendships

/-- `Friends.loadFriendRequests`, received half:
rows with status = "pending" and user_id_2 = user.id, under the RLS select. -/
def loadFriendRequests (uid : UserId) (s : Store) : List FriendshipRow :=
  (rlsSelect friendshipsPolicy.selectUsing uid s.friendships).filter fun f =>
    decide (f.status = FriendshipStatus.pending) && decide (f.user_id_2 = uid)

/-! ## Likes, follows, comments operations -/

/-- INSERT into `likes` (`Post.handleLike`, like branch): primary key,
UNIQUE(post_id, user_id), RLS "Users can create likes". -/
def insertLikeRow (uid : UserId) (r : LikeRow) (s : Store) : Except DbError Store :=
  if s.likes.any fun g => g.id == r.id then .error .uniqueViolation
  else if s.likes.any fun g => g.post_id == r.post_id && g.user_id == r.user_id then
    .error .uniqueViolation
  else if !(rlsAllows likesPolicy.insertCheck uid r) then .error .rlsViolation
  else .ok { s with likes := s.likes ++ [r] }

/-- INSERT into `follows` (`Friends.handleFollow`, follow branch):
CHECK (follower_id != following_id), primary key,
UNIQUE(follower_id, following_id), RLS "Users can create follows". -/
def insertFollowRow (uid : UserId) (r : FollowRow) (s : Store) : Except DbError Store :=
  if r.follower_id == r.following_id then .error .checkViolation
  else if s.follows.any fun g => g.id == r.id then .error .uniqueViolation
  else if s.follows.any fun g =>
      g.follower_id == r.follower_id && g.following_id == r.following_id then
    .error .uniqueViolation
  else if !(rlsAllows followsPolicy.insertCheck uid r) then .error .rlsViolation
  else .ok { s with follows := s.follows ++ [r] }

/-- INSERT into `comments` (`Post.handleComment`): primary key,
RLS "Users can create comments". -/
def insertCommentRow (uid : UserId) (r : CommentRow) (s : Store) :
    Except DbError Store :=
  if s.comments.any fun g => g.id == r.id then .error .uniqueViolation
  else if !(rlsAllows commentsPolicy.insertCheck uid r) then .error .rlsViolation
  else .ok { s with comments := s.comments ++ [r] }

/-- `Post.handleDeleteComment`: a delete of the row with id = commentId on `comments`
under RLS "Users can delete own comments". -/
def deleteCommentById (uid : UserId) (commentId : RowId) (s : Store) : Store :=
  { s with comments :=
      (rlsDelete commentsPolicy.deleteUsing uid (fun c => c.id == commentId)
        s.comments) }

/-- An attempted UPDATE of a comment's content.  `comments` has no RLS UPDATE
policy, so the USING filter matches no row: the statement succeeds having
updated nothing. -/
def updateCommentById (uid : UserId) (commentId : RowId) (newContent : String)
    (s : Store) : Store :=
  { s with comments := s.comments.map fun c =>
      if rlsAllows commentsPolicy.updatePred uid c && c.id == commentId then
        { c with content := newContent }
      else c }

/-! ## Cascade delete of a profile

Every foreign key in the migration referencing `profiles(id)` or `posts(id)`
is declared ON DELETE CASCADE.  Deleting profile `p` therefore removes: the
profile row; posts authored by `p`; comments whose author is `p` or whose
post was removed; likes whose user is `p` or whose post was removed; follows
with `p` on either side; friendships where `p` is a participant or the
requester. -/

def deleteProfileCascade (p : UserId) (s : Store) : Store :=
  let removedPosts := (s.posts.filter fun r => decide (r.user_id = p)).map PostRow.id
  { profiles := s.profiles.filter fun r => !decide (r.id = p)
    posts := s.posts.filter fun r => !decide (r.user_id = p)
    comments := s.comments.filter fun c =>
      !(decide (c.user_id = p) || removedPosts.contains c.post_id)
    likes := s.likes.filter fun l =>
      !(decide (l.user_id = p) || removedPosts.contains l.post_id)
    follows := s.follows.filter fun f =>
      !(decide (f.follower_id = p) || decide (f.following_id = p))
    friendships := s.friendships.filter fun f =>
      !(decide (f.user_id_1 = p) || decide (f.user_id_2 = p) ||
        decide (f.requested_by = p)) }

/-! ## Ordered reads (`Feed.loadPosts`, `Post.loadComments`) -/

/-- `order by key desc`. -/
def orderByDesc {α : Type} (key : α → Nat) (l : List α) : List α :=
  List.insertionSort (fun a b => key b ≤ key a) l

/-- `order by key asc`. -/
def orderByAsc {α : Type} (key : α → Nat) (l : List α) : List α :=
  List.insertionSort (fun a b => key a ≤ key b) l

/-- `Feed.loadPosts`: select all posts, ordered by created_at descending. -/
def loadPosts (uid : UserId) (s : Store) : List PostRow :=
  orderByDesc PostRow.created_at (rlsSelect postsPolicy.selectUsing uid s.posts)

/-- `Post.loadComments`:
the comments with post_id = post.id, ordered by created_at ascending. -/
def loadComments (uid : UserId) (postId : RowId) (s : Store) : List CommentRow :=
  orderByAsc CommentRow.created_at
    ((rlsSelect commentsPolicy.selectUsing uid s.comments).filter fun c =>
      c.post_id == postId)

/-! ## View-local state updates

What each handler does to the component's own state, as a function of the
store call's observed outcome.  `CallResult.failure` covers authorization
failures, uniqueness violations and network failures alike — the client
surfaces them identically. -/

/-- Outcome of a store call as observed by a view. -/
inductive CallResult where
  | success
  | failure
deriving DecidableEq, Repr

/-- `Post.handleLike`, local `likes` state: the store call's result is
discarded (awaited but never read), and the list is updated
unconditionally. -/
def handleLikeLocal (uid : UserId) (likes : List UserId) (_res : CallResult) :
    List UserId :=
  if likes.contains uid then likes.filter fun i => !decide (i = uid)
  else likes ++ [uid]

/-- `Friends.handleFollow`, local `followingIds` state: the store call's
result is discarded, and the set is updated unconditionally. -/
def handleFollowLocal (target : UserId) (followingIds : List UserId)
    (_res : CallResult) : List UserId :=
  if followingIds.contains target then followingIds.filter fun i => !decide (i = target)
  else followingIds ++ [target]

/-- `Friends.handleFriendRequest`, local `pendingRequestIds` state: updated
only under `if (!error)`. -/
def handleFriendRequestLocal (target : UserId) (pendingIds : List UserId)
    (res : CallResult) : List UserId :=
  match res with
  | .success => pendingIds ++ [target]
  | .failure => pendingIds

/-- `Post.handleDeleteComment`, local `comments` state: reloaded only under
`if (!error)`. -/
def handleDeleteCommentLocal (comments reloaded : List CommentRow)
    (res : CallResult) : List CommentRow :=
  match res with
  | .success => reloaded
  | .failure => comments

/-- `Post.handleDeletePost`: `onDelete()` (the feed reload) runs only under
`if (!error)`. -/
def handleDeletePostLocal (posts reloadedPosts : List PostRow)
    (res : CallResult) : List PostRow :=
  match res with
  | .success => reloadedPosts
  | .failure => posts

/-- `CreatePost.handleSubmit`, local (content, imageUrl) state: cleared on
success; on error the catch block shows a generic alert and leaves both
fields as they were. -/
def handleSubmitLocal (content imageUrl : String) (res : CallResult) :
    String × String :=
  match res with
  | .success => ("", "")
  | .failure => (content, imageUrl)

/-- `Post.handleComment`, local (commentText, comments) state: on success the
text is cleared and the comments reload; on error the catch block logs and
both stay as they were. -/
def handleCommentLocal (text : String) (comments reloaded : List CommentRow)
    (res : CallResult) : String × List CommentRow :=
  match res with
  | .success => ("", reloaded)
  | .failure => (text, comments)

/-! ## The exposed friendship operations (for the transition system) -/

/-- The friendship-mutating operations the application exposes (the Add
Friend, Accept and Reject buttons of the `Friends` view). -/
inductive FriendOp where
  | request (target : UserId) (newId : RowId) (t : Timestamp)
  | accept (requestId : RowId)
  | reject (requestId : RowId)

/-- Run one exposed friendship operation as caller `uid`; a store error
leaves the store unchanged. -/
def applyFriendOp (uid : UserId) (op : FriendOp) (s : Store) : Store :=
  match op with
  | .request target newId t =>
    match handleFriendRequest uid target newId t s with
    | .ok s' => s'
    | .error _ => s
  | .accept requestId =>
    match handleAcceptRequest uid requestId s with
    | .ok s' => s'
    | .error _ => s
  | .reject requestId => handleRejectRequest uid requestId s

/-! ## Concrete sample data (used to evaluate the theorems on closed inputs) -/

def samplePending : FriendshipRow :=
  { id := 1, user_id_1 := 10, user_id_2 := 20, status := .pending,
    requested_by := 10, created_at := 0, updated_at := 0 }

def sampleAccepted : FriendshipRow :=
  { id := 2, user_id_1 := 10, user_id_2 := 30, status := .accepted,
    requested_by := 30, created_at := 0, updated_at := 1 }

def sampleComment : CommentRow :=
  { id := 1, post_id := 1, user_id := 20, content := "nice", created_at := 6 }

def newComment : CommentRow :=
  { id := 5, post_id := 1, user_id := 30, content := "more", created_at := 9 }

def aliceProfile : ProfileRow :=
  { id := 10, username := "alice", full_name := "", avatar_url := "",
    bio := "", created_at := 0 }

def bobProfile : ProfileRow :=
  { id := 20, username := "bob", full_name := "", avatar_url := "",
    bio := "", created_at := 1 }

def sampleStore : Store :=
  { profiles := [aliceProfile, bobProfile]
    posts := [{ id := 1, user_id := 10, content := "hello", image_url := "",
                created_at := 5 }]
    comments := [sampleComment]
    likes := []
    follows := []
    friendships := [samplePending, sampleAccepted] }

def sampleLike : LikeRow := { id := 1, post_id := 1, user_id := 20, created_at := 7 }

def sampleLikeDup : LikeRow := { id := 2, post_id := 1, user_id := 20, created_at := 8 }

def selfFollow : FollowRow :=
  { id := 3, follower_id := 10, following_id := 10, created_at := 0 }

def okFollow : FollowRow :=
  { id := 3, follower_id := 10, following_id := 20, created_at := 0 }

/-- A pending request stored with the recipient as `user_id_1` (the shape the
application never creates). -/
def swappedPending : FriendshipRow :=
  { id := 3, user_id_1 := 20, user_id_2 := 10, status := .pending,
    requested_by := 10, created_at := 0, updated_at := 0 }

def swappedStore : Store :=
  { sampleStore with friendships := [swappedPending] }

/-! ## Helper lemmas -/

/-- A DELETE on `friendships` never removes a row: the table has RLS enabled
but the migration declares no DELETE policy, so the (absent) policy matches no
row and the statement silently affects nothing. -/
theorem handleRejectRequest_eq_self (uid : UserId) (requestId : RowId) (s : Store) :
    handleRejectRequest uid requestId s = s := by
  simp [handleRejectRequest, rlsDelete, rlsAllows, friendshipsPolicy]

theorem insertFriendshipRow_ok {uid : UserId} {r : FriendshipRow} {s s' : Store}
    (h : insertFriendshipRow uid r s = .ok s') :
    s'.friendships = s.friendships ++ [r] ∧
    (s.friendships.any fun g => g.id == r.id) = false := by
  unfold insertFriendshipRow at h
  split at h
  · simp at h
  · split at h
    · simp at h
    · next hpk =>
      split at h
      · simp at h
      · cases h
        exact ⟨rfl, by simpa using hpk⟩

theorem handleFriendRequest_ok {uid target : UserId} {newId : RowId}
    {t : Timestamp} {s s' : Store}
    (h : handleFriendRequest uid target newId t s = .ok s') :
    s'.friendships = s.friendships ++ [friendRequestRow uid target newId t] ∧
    (s.friendships.any fun g => g.id == newId) = false := by
  unfold handleFriendRequest at h
  simpa [friendRequestRow] using insertFriendshipRow_ok h

theorem updateFriendshipsSet_ok {uid : UserId} {upd : FriendshipRow → FriendshipRow}
    {cond : FriendshipRow → Bool} {s s' : Store}
    (h : updateFriendshipsSet uid upd cond s = .ok s') :
    s'.friendships = s.friendships.map fun f =>
      if rlsAllows friendshipsPolicy.updatePred uid f && cond f then upd f else f := by
  unfold updateFriendshipsSet at h
  split at h
  · simp at h
  · split at h
    · simp at h
    · cases h
      rfl

theorem handleAcceptRequest_ok {uid : UserId} {requestId : RowId} {s s' : Store}
    (h : handleAcceptRequest uid requestId s = .ok s') :
    s'.friendships = s.friendships.map fun f =>
      if rlsAllows friendshipsPolicy.updatePred uid f && f.id == requestId
      then { f with status := FriendshipStatus.accepted } else f := by
  unfold handleAcceptRequest at h
  exact updateFriendshipsSet_ok h

/-- Overwriting the status of an already-accepted row with `accepted` is the
identity. -/
theorem friendship_set_accepted_self {f : FriendshipRow}
    (h : f.status = FriendshipStatus.accepted) :
    { f with status := FriendshipStatus.accepted } = f := by
  cases f
  simp_all

/-- In a table whose ids are distinct (the primary key), two member rows with
the same id are the same row. -/
theorem friendship_eq_of_id_eq {l : List FriendshipRow}
    (hids : (l.map FriendshipRow.id).Nodup) {f g : FriendshipRow}
    (hf : f ∈ l) (hg : g ∈ l) (h : f.id = g.id) : f = g :=
  List.inj_on_of_nodup_map hids hf hg h

/-! ## Claim theorems -/

/-- C1: the claim says either participant of a pending friendship can remove
the request by deleting the row and that the deletion succeeds against the
store's policies.  In the code it does not: `friendships` has RLS enabled but
the migration declares no DELETE policy, so `handleRejectRequest`'s delete
statement affects no row whatsoever — in particular the failing input's
pending row survives its recipient's reject. -/
theorem reject_request_delete_is_denied :
    (∀ uid requestId s, handleRejectRequest uid requestId s = s) ∧
    samplePending ∈ (handleRejectRequest 20 1 sampleStore).friendships := by
  refine ⟨handleRejectRequest_eq_self, ?_⟩
  rw [handleRejectRequest_eq_self]
  decide

/-- C5: a friendships read returns a stored row to caller `uid` iff `uid` is
`user_id_1` or `user_id_2` of the row; a third party's read returns no row. -/
theorem friendship_select_iff_participant (uid : UserId) (s : Store)
    (f : FriendshipRow) (hf : f ∈ s.friendships) :
    f ∈ selectFriendships uid s ↔ (uid = f.user_id_1 ∨ uid = f.user_id_2) := by
  simp [selectFriendships, rlsSelect, rlsAllows, friendshipsPolicy,
    List.mem_filter, hf]

/-- Witness for C5 at a concrete row and caller. -/
theorem friendship_select_iff_participant_witness :
    samplePending ∈ selectFriendships 20 sampleStore ↔
      (20 = samplePending.user_id_1 ∨ 20 = samplePending.user_id_2) :=
  friendship_select_iff_participant 20 sampleStore samplePending (by decide)

/-- C8: there is no update path for comments: an attempted comment update is
denied for every caller (the table has no UPDATE policy) and leaves the store
unchanged; the only exposed operations append a new row (insert) or remove a
row (delete) and never alter an existing row's fields. -/
theorem comments_no_update_path :
    (∀ uid commentId newContent s,
      updateCommentById uid commentId newContent s = s) ∧
    (∀ uid r s s', insertCommentRow uid r s = .ok s' →
      s'.comments = s.comments ++ [r]) ∧
    (∀ uid commentId s c, c ∈ (deleteCommentById uid commentId s).comments →
      c ∈ s.comments) := by
  refine ⟨?_, ?_, ?_⟩
  · intro uid cid nc s
    simp [updateCommentById, rlsAllows, commentsPolicy]
  · intro uid r s s' h
    unfold insertCommentRow at h
    split at h
    · simp at h
    · split at h
      · simp at h
      · cases h
        rfl
  · intro uid cid s c hc
    simp only [deleteCommentById, rlsDelete] at hc
    exact (List.mem_filter.mp hc).1

/-- Witness for C8 at a concrete store: the attempted update by the author is
a no-op, a row survives a third party's delete, and an insert appends. -/
theorem comments_no_update_path_witness :
    updateCommentById 20 1 "edited" sampleStore = sampleStore ∧
    sampleComment ∈ sampleStore.comments ∧
    ({ sampleStore with comments := sampleStore.comments ++ [newComment] } : Store).comments
      = sampleStore.comments ++ [newComment] :=
  ⟨comments_no_update_path.1 20 1 "edited" sampleStore,
   comments_no_update_path.2.2 40 1 sampleStore sampleComment (by decide),
   comments_no_update_path.2.1 30 newComment sampleStore
     { sampleStore with comments := sampleStore.comments ++ [newComment] } rfl⟩

/-- C3 counterexample: a like (resp. follow) store call that fails still
mutates the view's local state exactly as a successful one would — the claim
that no failed operation leaves local state mutated as if it succeeded is
false on `Post.handleLike` and `Friends.handleFollow`. -/
theorem like_follow_failure_still_mutates :
    handleLikeLocal 1 [] CallResult.failure = [1] ∧
    handleLikeLocal 1 [] CallResult.failure ≠ [] ∧
    handleFollowLocal 2 [] CallResult.failure = [2] ∧
    handleFollowLocal 2 [] CallResult.failure ≠ [] := by
  refine ⟨rfl, ?_, rfl, ?_⟩ <;> decide

/-- C3 amended: the error-checking paths (friend request, comment create and
delete, post create and delete) leave their local state unchanged when the
store call fails, while the like and follow handlers discard the call result
and update local state identically on success and on failure. -/
theorem failure_paths_local_state :
    (∀ target pendingIds,
      handleFriendRequestLocal target pendingIds CallResult.failure = pendingIds) ∧
    (∀ comments reloaded,
      handleDeleteCommentLocal comments reloaded CallResult.failure = comments) ∧
    (∀ posts reloaded,
      handleDeletePostLocal posts reloaded CallResult.failure = posts) ∧
    (∀ content imageUrl,
      handleSubmitLocal content imageUrl CallResult.failure = (content, imageUrl)) ∧
    (∀ text comments reloaded,
      handleCommentLocal text comments reloaded CallResult.failure = (text, comments)) ∧
    (∀ uid likes res,
      handleLikeLocal uid likes res = handleLikeLocal uid likes CallResult.success) ∧
    (∀ target ids res,
      handleFollowLocal target ids res = handleFollowLocal target ids CallResult.success) :=
  ⟨fun _ _ => rfl, fun _ _ => rfl, fun _ _ => rfl, fun _ _ => rfl,
   fun _ _ _ => rfl, fun _ _ _ => rfl, fun _ _ _ => rfl⟩

/-- C9: a feed read returns the visible posts sorted most-recent-first and a
comment read returns the post's visible comments sorted oldest-first; both
are permutations of the underlying visible rows. -/
theorem feed_desc_comments_asc (uid : UserId) (postId : RowId) (s : Store) :
    (loadPosts uid s).Sorted (fun a b => b.created_at ≤ a.created_at) ∧
    List.Perm (loadPosts uid s) (rlsSelect postsPolicy.selectUsing uid s.posts) ∧
    (loadComments uid postId s).Sorted (fun a b => a.created_at ≤ b.created_at) ∧
    List.Perm (loadComments uid postId s)
      ((rlsSelect commentsPolicy.selectUsing uid s.comments).filter
        fun c => c.post_id == postId) := by
  haveI : IsTotal PostRow fun a b => b.created_at ≤ a.created_at :=
    ⟨fun a b => Nat.le_total b.created_at a.created_at⟩
  haveI : IsTrans PostRow fun a b => b.created_at ≤ a.created_at :=
    ⟨fun _ _ _ hab hbc => Nat.le_trans hbc hab⟩
  haveI : IsTotal CommentRow fun a b => a.created_at ≤ b.created_at :=
    ⟨fun a b => Nat.le_total a.created_at b.created_at⟩
  haveI : IsTrans CommentRow fun a b => a.created_at ≤ b.created_at :=
    ⟨fun _ _ _ hab hbc => Nat.le_trans hab hbc⟩
  simp only [loadPosts, loadComments, orderByDesc, orderByAsc]
  exact ⟨List.sorted_insertionSort _ _, List.perm_insertionSort _ _,
    List.sorted_insertionSort _ _, List.perm_insertionSort _ _⟩

/-- C4: after deleting profile `p`, no remaining post, comment, like, follow
or friendship row (nor profile row) references `p`'s id. -/
theorem profile_cascade_removes_all_references (p : UserId) (s : Store) :
    (∀ r ∈ (deleteProfileCascade p s).posts, r.user_id ≠ p) ∧
    (∀ c ∈ (deleteProfileCascade p s).comments, c.user_id ≠ p) ∧
    (∀ l ∈ (deleteProfileCascade p s).likes, l.user_id ≠ p) ∧
    (∀ f ∈ (deleteProfileCascade p s).follows,
      f.follower_id ≠ p ∧ f.following_id ≠ p) ∧
    (∀ f ∈ (deleteProfileCascade p s).friendships,
      f.user_id_1 ≠ p ∧ f.user_id_2 ≠ p ∧ f.requested_by ≠ p) ∧
    (∀ r ∈ (deleteProfileCascade p s).profiles, r.id ≠ p) := by
  refine ⟨?_, ?_, ?_, ?_, ?_, ?_⟩ <;> intro x hx <;>
    simp only [deleteProfileCascade, List.mem_filter] at hx <;>
    have hcond := hx.2 <;> simp at hcond <;> tauto

/-- Witness for C4 at a concrete store: Bob's profile survives Alice's
cascade delete and indeed does not reference her id. -/
theorem profile_cascade_removes_all_references_witness :
    bobProfile.id ≠ 10 :=
  (profile_cascade_removes_all_references 10 sampleStore).2.2.2.2.2 bobProfile
    (by decide)

/-- C7: inserting a self-follow fails unconditionally — the table CHECK
constraint rejects it for every caller — and successful inserts preserve the
invariant that no stored follow row has `follower_id = following_id`. -/
theorem follow_no_self_follow :
    (∀ uid r s, r.follower_id = r.following_id →
      insertFollowRow uid r s = .error DbError.checkViolation) ∧
    (∀ s, (∀ g ∈ s.follows, g.follower_id ≠ g.following_id) →
      ∀ uid r s', insertFollowRow uid r s = .ok s' →
      ∀ g ∈ s'.follows, g.follower_id ≠ g.following_id) := by
  constructor
  · intro uid r s h
    simp [insertFollowRow, h]
  · intro s hinv uid r s' h g hg
    unfold insertFollowRow at h
    split at h
    · simp at h
    · next hself =>
      split at h
      · simp at h
      · split at h
        · simp at h
        · split at h
          · simp at h
          · cases h
            rcases List.mem_append.mp hg with h1 | h1
            · exact hinv g h1
            · have hgr : g = r := by simpa using h1
              subst hgr
              simpa using hself

/-- Witness for C7: the concrete self-follow is rejected, and a legitimate
insert keeps the invariant on a concrete row. -/
theorem follow_no_self_follow_witness :
    insertFollowRow 10 selfFollow sampleStore = .error DbError.checkViolation ∧
    okFollow.follower_id ≠ okFollow.following_id :=
  ⟨follow_no_self_follow.1 10 selfFollow sampleStore rfl,
   follow_no_self_follow.2 sampleStore (by decide) 10 okFollow
     { sampleStore with follows := sampleStore.follows ++ [okFollow] } rfl
     okFollow (by decide)⟩

/-- C6: in a store with no like for `(r.post_id, r.user_id)` (and a fresh
primary key), the first insert of that like by its user succeeds and appends
the row; afterwards any insert of a like with the same (post_id, user_id)
pair, by any caller, fails. -/
theorem like_unique_pair (s : Store) (r : LikeRow)
    (hpk : ∀ g ∈ s.likes, g.id ≠ r.id)
    (hpair : ∀ g ∈ s.likes, ¬(g.post_id = r.post_id ∧ g.user_id = r.user_id)) :
    insertLikeRow r.user_id r s = .ok { s with likes := s.likes ++ [r] } ∧
    ∀ uid₂ r₂, r₂.post_id = r.post_id → r₂.user_id = r.user_id →
      ∃ e, insertLikeRow uid₂ r₂ { s with likes := s.likes ++ [r] } = .error e := by
  constructor
  · have h1 : (s.likes.any fun g => g.id == r.id) = false := by
      simp only [List.any_eq_false, beq_iff_eq]
      exact hpk
    have h2 : (s.likes.any fun g =>
        g.post_id == r.post_id && g.user_id == r.user_id) = false := by
      simp only [List.any_eq_false, Bool.and_eq_true, beq_iff_eq, not_and]
      intro g hg hp
      intro hu
      exact hpair g hg ⟨hp, hu⟩
    have h3 : rlsAllows likesPolicy.insertCheck r.user_id r = true := by
      simp [rlsAllows, likesPolicy]
    simp [insertLikeRow, h1, h2, h3]
  · intro uid₂ r₂ hp hu
    unfold insertLikeRow
    split
    · exact ⟨DbError.uniqueViolation, rfl⟩
    · split
      · exact ⟨DbError.uniqueViolation, rfl⟩
      · next hdup =>
        exfalso
        apply hdup
        refine List.any_eq_true.mpr ⟨r, ?_, ?_⟩
        · simp [List.mem_append]
        · simp [hp, hu]

/-- Witness for C6 at a concrete post and user. -/
theorem like_unique_pair_witness :
    insertLikeRow sampleLike.user_id sampleLike sampleStore =
      .ok { sampleStore with likes := sampleStore.likes ++ [sampleLike] } ∧
    ∃ e, insertLikeRow 20 sampleLikeDup
      { sampleStore with likes := sampleStore.likes ++ [sampleLike] } = .error e := by
  have h := like_unique_pair sampleStore sampleLike (by decide) (by decide)
  exact ⟨h.1, h.2 20 sampleLikeDup rfl rfl⟩

/-- C10: every friendship row the application creates has
`user_id_1 = requested_by =` the caller (the recipient is `user_id_2`); the
Requests view lists exactly the pending rows whose `user_id_2` is the caller;
hence a pending row storing the recipient as `user_id_1` never shows up in
that recipient's request list. -/
theorem friend_request_shape_and_request_list :
    (∀ uid target newId t,
      (friendRequestRow uid target newId t).user_id_1 = uid ∧
      (friendRequestRow uid target newId t).requested_by = uid ∧
      (friendRequestRow uid target newId t).user_id_2 = target) ∧
    (∀ uid target newId t s s', handleFriendRequest uid target newId t s = .ok s' →
      s'.friendships = s.friendships ++ [friendRequestRow uid target newId t]) ∧
    (∀ uid s f, f ∈ loadFriendRequests uid s ↔
      (f ∈ s.friendships ∧ f.status = FriendshipStatus.pending ∧
        f.user_id_2 = uid)) ∧
    (∀ uid s f, f ∈ s.friendships → f.status = FriendshipStatus.pending →
      f.user_id_1 = uid → f.user_id_2 ≠ uid → f ∉ loadFriendRequests uid s) := by
  have hiff : ∀ uid s (f : FriendshipRow), f ∈ loadFriendRequests uid s ↔
      (f ∈ s.friendships ∧ f.status = FriendshipStatus.pending ∧
        f.user_id_2 = uid) := by
    intro uid s f
    simp only [loadFriendRequests, rlsSelect, rlsAllows, friendshipsPolicy,
      List.mem_filter, Bool.and_eq_true, decide_eq_true_eq]
    constructor
    · rintro ⟨⟨hmem, -⟩, hp, hu⟩
      exact ⟨hmem, hp, hu⟩
    · rintro ⟨hmem, hp, hu⟩
      exact ⟨⟨hmem, Or.inr hu.symm⟩, hp, hu⟩
  refine ⟨fun uid target newId t => ⟨rfl, rfl, rfl⟩, ?_, hiff, ?_⟩
  · intro uid target newId t s s' h
    exact (handleFriendRequest_ok h).1
  · intro uid s f hf hp h1 h2 hmem
    exact h2 ((hiff uid s f).mp hmem).2.2

/-- Witness for C10: the concrete request row has the caller on both
`user_id_1` and `requested_by`, and the concrete swapped pending row is
absent from its recipient's request list. -/
theorem friend_request_shape_witness :
    (friendRequestRow 10 20 3 0).user_id_1 = 10 ∧
    swappedPending ∉ loadFriendRequests 20 swappedStore := by
  have h := friend_request_shape_and_request_list
  exact ⟨(h.1 10 20 3 0).1,
    h.2.2.2 20 swappedStore swappedPending (by decide) rfl rfl (by decide)⟩

/-- C2: over the friendship operations the application exposes (request,
accept, reject), in a store whose friendship ids are distinct (the primary
key) and which holds no `rejected` row (the application never writes one):
accepted rows survive every operation unchanged; a row sharing an id with a
pre-existing row is either that row unchanged or its `pending` version turned
`accepted`; and no operation introduces a `rejected` row. -/
theorem friendship_status_transitions (uid : UserId) (op : FriendOp) (s : Store)
    (hids : (s.friendships.map FriendshipRow.id).Nodup)
    (hrej : ∀ f ∈ s.friendships, f.status ≠ FriendshipStatus.rejected) :
    (∀ f ∈ s.friendships, f.status = FriendshipStatus.accepted →
      f ∈ (applyFriendOp uid op s).friendships) ∧
    (∀ f ∈ s.friendships, ∀ f' ∈ (applyFriendOp uid op s).friendships,
      f'.id = f.id → f' = f ∨ (f.status = FriendshipStatus.pending ∧
        f' = { f with status := FriendshipStatus.accepted })) ∧
    (∀ f' ∈ (applyFriendOp uid op s).friendships,
      f'.status ≠ FriendshipStatus.rejected) := by
  have hchar : (applyFriendOp uid op s).friendships = s.friendships ∨
      (∃ r, (applyFriendOp uid op s).friendships = s.friendships ++ [r] ∧
        (s.friendships.any fun g => g.id == r.id) = false ∧
        r.status = FriendshipStatus.pending) ∨
      (∃ rid, (applyFriendOp uid op s).friendships = s.friendships.map fun f =>
        if rlsAllows friendshipsPolicy.updatePred uid f && f.id == rid
        then { f with status := FriendshipStatus.accepted } else f) := by
    cases op with
    | request target newId t =>
      cases hh : handleFriendRequest uid target newId t s with
      | ok s' =>
        right; left
        refine ⟨friendRequestRow uid target newId t, ?_, ?_, rfl⟩
        · simpa [applyFriendOp, hh] using (handleFriendRequest_ok hh).1
        · simpa [friendRequestRow] using (handleFriendRequest_ok hh).2
      | error e =>
        left
        simp [applyFriendOp, hh]
    | accept requestId =>
      cases hh : handleAcceptRequest uid requestId s with
      | ok s' =>
        right; right
        refine ⟨requestId, ?_⟩
        simpa [applyFriendOp, hh] using handleAcceptRequest_ok hh
      | error e =>
        left
        simp [applyFriendOp, hh]
    | reject requestId =>
      left
      simp [applyFriendOp, handleRejectRequest_eq_self]
  refine ⟨?_, ?_, ?_⟩
  · intro f hf hacc
    rcases hchar with hc | ⟨r, hc, -, -⟩ | ⟨rid, hc⟩
    · rw [hc]; exact hf
    · rw [hc]; exact List.mem_append_left _ hf
    · rw [hc]
      refine List.mem_map.mpr ⟨f, hf, ?_⟩
      split
      · exact friendship_set_accepted_self hacc
      · rfl
  · intro f hf f' hf' hid
    rcases hchar with hc | ⟨r, hc, hfresh, -⟩ | ⟨rid, hc⟩
    · rw [hc] at hf'
      exact Or.inl (friendship_eq_of_id_eq hids hf' hf hid)
    · rw [hc] at hf'
      rcases List.mem_append.mp hf' with h1 | h1
      · exact Or.inl (friendship_eq_of_id_eq hids h1 hf hid)
      · exfalso
        have hr : f' = r := by simpa using h1
        have : (s.friendships.any fun g => g.id == r.id) = true := by
          refine List.any_eq_true.mpr ⟨f, hf, ?_⟩
          simp [← hid, hr]
        rw [this] at hfresh
        cases hfresh
    · rw [hc] at hf'
      rcases List.mem_map.mp hf' with ⟨x, hx, hgx⟩
      have hxid : f'.id = x.id := by
        rw [← hgx]
        split <;> rfl
      have hxf : x = f := by
        refine friendship_eq_of_id_eq hids hx hf ?_
        rw [← hxid, hid]
      subst hxf
      rw [← hgx]
      split
      · cases hst : x.status with
        | pending => exact Or.inr ⟨rfl, rfl⟩
        | accepted => exact Or.inl (friendship_set_accepted_self hst)
        | rejected => exact absurd hst (hrej x hx)
      · exact Or.inl rfl
  · intro f' hf'
    rcases hchar with hc | ⟨r, hc, -, hrp⟩ | ⟨rid, hc⟩
    · rw [hc] at hf'
      exact hrej f' hf'
    · rw [hc] at hf'
      rcases List.mem_append.mp hf' with h1 | h1
      · exact hrej f' h1
      · have hr : f' = r := by simpa using h1
        rw [hr, hrp]
        simp
    · rw [hc] at hf'
      rcases List.mem_map.mp hf' with ⟨x, hx, hgx⟩
      rw [← hgx]
      split
      · simp
      · exact hrej x hx

/-- Witness for C2: in the concrete store the accepted row survives a
concrete accept operation. -/
theorem friendship_status_transitions_witness :
    sampleAccepted ∈ (applyFriendOp 20 (FriendOp.accept 1) sampleStore).friendships :=
  (friendship_status_transitions 20 (FriendOp.accept 1) sampleStore (by decide)
    (by decide)).1 sampleAccepted (by decide) rfl

end HyperFriendsZone
